import Mathlib

/-!
Verification development for the animation module
(`data/components/animation.py`): the `Task` deferred runner, the
`Animation` interpolation state machine, and the `AnimationTransition`
easing catalog.

Modelling conventions.
* Python floats are modelled as exact rationals (`ℚ`) for the state
  machines, and as real numbers (`ℝ`) for the easing catalog, whose
  formulas involve `sin`, `cos`, `sqrt` and real powers of two.
* Python exceptions (`ZeroDivisionError` from `elapsed / duration` when
  `duration == 0`, `TypeError` from iterating `self._targets` when it is
  `None`) are modelled with `Except`.  Since `self._elapsed += dt` runs
  before either exception can be raised, the error value carries the
  partially mutated state.
* Animated targets are identified by a `Nat` id; a target object is an
  attribute map `List (String × ℚ)` (`getattr` is association-list lookup).
  `setattr` calls performed by `update` are returned as an explicit write
  list `(target id, attribute name, value)`.
* `callback` is an optional attribute set on the animation; we record only
  whether it is set (`hasCallback`) and report each invocation as a
  `fired` flag, counting invocations along traces with `runUpdates`.
* `kill()` (from `pygame.sprite.Sprite`) removes the sprite from every
  group; we record it as `alive := false`.  `Task.groupUpdate` models the
  documented dispatch through a sprite group (`Group.update` only reaches
  sprites still in the group, and a killed sprite is in none).
-/

namespace Pyroller

/-- State of `Task` (animation.py, `Task.__init__`): `interval`, the
initial `loops` argument, the `_timer` accumulator, the `_loops` counter,
and whether the sprite is still in its groups (`kill` not yet called). -/
structure Task where
  interval : ℚ
  loopsInit : ℤ
  timer : ℚ
  loops : ℤ
  alive : Bool
  deriving Repr, DecidableEq

/-- Constructor `Task.__init__(callback, interval=0, loops=1)`: asserts `loops >= -1`
(`assert (loops >= -1)`); the callback is required callable, which we keep
implicit.  Returns `none` exactly when the assertion fails. -/
def mkTask (interval : ℚ) (loops : ℤ) : Option Task :=
  if loops ≥ -1 then
    some { interval := interval, loopsInit := loops, timer := 0,
           loops := loops, alive := true }
  else none

/-- Method `Task.update(delta)`: accumulate `delta` into `_timer`; when the timer
reaches `interval`, subtract `interval` (keeping the remainder), invoke the
callback (reported as the returned `Bool`), and unless `_loops == -1`
decrement `_loops`, calling `kill()` when it drops to `<= 0`. -/
def Task.update (t : Task) (delta : ℚ) : Task × Bool :=
  let timer := t.timer + delta
  if t.interval ≤ timer then
    let timer := timer - t.interval
    if t.loops = -1 then
      ({ t with timer := timer }, true)
    else
      let l := t.loops - 1
      if l ≤ 0 then
        ({ t with timer := timer, loops := l, alive := false }, true)
      else
        ({ t with timer := timer, loops := l }, true)
  else
    ({ t with timer := timer }, false)

/-- One tick delivered through the sprite group that owns the task: a task
whose `kill()` ran has been removed from the group, so `Group.update` no
longer reaches its `update` method. -/
def Task.groupUpdate (t : Task) (delta : ℚ) : Task × Bool :=
  if t.alive then t.update delta else (t, false)

/-- Exceptions `Animation.update` can raise: `ZeroDivisionError` from
`self._elapsed / self._duration`, and `TypeError` from iterating
`self._targets` while it is `None`. -/
inductive AnimErr where
  | zeroDivision
  | typeError
  deriving Repr, DecidableEq

/-- A captured binding for one target: the target id together with, per
attribute name, the `(start, end)` pair recorded by `Animation.start`. -/
abbrev Bindings := List (Nat × List (String × (ℚ × ℚ)))

/-- State of `Animation` (animation.py, `Animation.__init__`): the
`round_values`, `duration`, `delay` options, the easing `_transition`
function (resolved from the catalog or passed directly; the rational
machine takes it as a function), the `_elapsed` accumulator, the
animated-property map `props`, the `_targets` bindings (`none` models
Python `None`), whether a `callback` attribute is set, and whether the
sprite is still in its groups. -/
structure Animation where
  round_values : Bool
  duration : ℚ
  delay : ℚ
  transition : ℚ → ℚ
  elapsed : ℚ
  props : List (String × ℚ)
  targets : Option Bindings
  hasCallback : Bool
  alive : Bool

/-- Constructor `Animation(**kwargs)`: stores the four recognised options, resolves the
transition, initialises `_elapsed = 0` and `_targets = None`, and keeps the
remaining keyword arguments as the property map. -/
def mkAnimation (props : List (String × ℚ)) (duration : ℚ) (delay : ℚ)
    (transition : ℚ → ℚ) (round_values : Bool) (hasCallback : Bool) :
    Animation :=
  { round_values := round_values, duration := duration, delay := delay,
    transition := transition, elapsed := 0, props := props,
    targets := none, hasCallback := hasCallback, alive := true }

/-- The easing `AnimationTransition.linear` specialised to the rational machine. -/
def linearQ (p : ℚ) : ℚ := p

/-- Python 3 `round(value, 0)`: round half to even (banker's rounding). -/
def pyRound (x : ℚ) : ℤ :=
  let f := ⌊x⌋
  let r := x - f
  if r < 1/2 then f
  else if 1/2 < r then f + 1
  else if f % 2 = 0 then f else f + 1

/-- Python `getattr(target, name)` on an attribute-map target. -/
def getAttr (target : List (String × ℚ)) (name : String) : Option ℚ :=
  (target.find? (fun kv => kv.1 = name)).map (·.2)

/-- The loop body of `Animation.start`: for each configured property name,
read the target's current value (`getattr`) and pair it with the end
value.  Fails (Python `AttributeError`) when an attribute is missing. -/
def captureProps (target : List (String × ℚ)) :
    List (String × ℚ) → Option (List (String × (ℚ × ℚ)))
  | [] => some []
  | (name, endv) :: rest =>
    match getAttr target name, captureProps target rest with
    | some cur, some tail => some ((name, (cur, endv)) :: tail)
    | _, _ => none

/-- Method `Animation.start(sprite)`: sets `self._targets = [(sprite, dict())]` —
a fresh one-element list, discarding any previous value — then fills the
dict with `(getattr(target, name), value)` for each configured property. -/
def Animation.start (a : Animation) (tid : Nat)
    (target : List (String × ℚ)) : Option Animation :=
  match captureProps target a.props with
  | some captured => some { a with targets := some [(tid, captured)] }
  | none => none

/-- Result of a non-raising `Animation.update` call: the new state, the
`setattr` writes performed (target id, attribute, value), and whether the
completion callback was invoked during the call. -/
structure UpdateOut where
  anim : Animation
  writes : List (Nat × String × ℚ)
  fired : Bool

/-- The `setattr` loop of `Animation.update`: for every binding and every
attribute, `value = a * (1 - t) + b * t`, rounded to an integer when
`round_values` is set. -/
def interpWrites (tgts : Bindings) (round_values : Bool) (t : ℚ) :
    List (Nat × String × ℚ) :=
  tgts.flatMap (fun tp =>
    tp.2.map (fun nv =>
      let value := nv.2.1 * (1 - t) + nv.2.2 * t
      let value := if round_values then ((pyRound value : ℤ) : ℚ) else value
      (tp.1, nv.1, value)))

/-- The normalized progress computed by `Animation.update` after adding
`dt`: `p = min(1., self._elapsed / self._duration)` — the accumulated
elapsed time is NOT delay-subtracted before the division. -/
def Animation.progressAfter (a : Animation) (dt : ℚ) : ℚ :=
  min 1 ((a.elapsed + dt) / a.duration)

/-- Method `Animation.update(dt)`: accumulate `dt` into `_elapsed`; return early
while `_elapsed < _delay`; otherwise compute
`p = min(1., _elapsed / _duration)` (ZeroDivisionError when `_duration`
is 0), `t = _transition(p)`, write the interpolated value for every
binding (TypeError when `_targets` is `None`), and when `p >= 1` clear
`_targets`, `kill()`, and invoke `callback` if set. -/
def Animation.update (a : Animation) (dt : ℚ) :
    Except (AnimErr × Animation) UpdateOut :=
  let a := { a with elapsed := a.elapsed + dt }
  if a.elapsed < a.delay then
    .ok { anim := a, writes := [], fired := false }
  else if a.duration = 0 then
    .error (.zeroDivision, a)
  else
    let p := min 1 (a.elapsed / a.duration)
    let t := a.transition p
    match a.targets with
    | none => .error (.typeError, a)
    | some tgts =>
      let writes := interpWrites tgts a.round_values t
      if 1 ≤ p then
        .ok { anim := { a with targets := none, alive := false },
              writes := writes, fired := a.hasCallback }
      else
        .ok { anim := a, writes := writes, fired := false }

/-- Run a sequence of `update` calls, counting callback invocations.  A
raising call still keeps its `_elapsed += dt` mutation (it ran before the
exception), and the trace continues from that state. -/
def runUpdates (a : Animation) : List ℚ → Animation × ℕ
  | [] => (a, 0)
  | dt :: rest =>
    match a.update dt with
    | .ok o =>
      let r := runUpdates o.anim rest
      (r.1, (if o.fired then 1 else 0) + r.2)
    | .error e =>
      let r := runUpdates e.2 rest
      (r.1, r.2)

/-- The writes of an `update` result (empty when the call raised). -/
def writesOf (r : Except (AnimErr × Animation) UpdateOut) :
    List (Nat × String × ℚ) :=
  match r with
  | .ok o => o.writes
  | .error _ => []

/-- The exception of an `update` result, if any. -/
def errOf (r : Except (AnimErr × Animation) UpdateOut) : Option AnimErr :=
  match r with
  | .error e => some e.1
  | .ok _ => none

/-- Complete behaviour of `Animation.update` while `_targets` is `None`
(never started, or already completed): inert early return while
`_elapsed < _delay`, otherwise `ZeroDivisionError` (zero duration) or
`TypeError` (iterating `None`). -/
lemma update_none_eq (a : Animation) (dt : ℚ) (h : a.targets = none) :
    a.update dt =
      if a.elapsed + dt < a.delay then
        .ok { anim := { a with elapsed := a.elapsed + dt }, writes := [],
              fired := false }
      else if a.duration = 0 then
        .error (.zeroDivision, { a with elapsed := a.elapsed + dt })
      else
        .error (.typeError, { a with elapsed := a.elapsed + dt }) := by
  simp only [Animation.update, h]

/-- While `_targets` is `None`, no trace of `update` calls ever fires the
callback, and `_targets` stays `None`. -/
lemma runUpdates_none (a : Animation) (dts : List ℚ) (h : a.targets = none) :
    (runUpdates a dts).2 = 0 ∧ (runUpdates a dts).1.targets = none := by
  induction dts generalizing a with
  | nil => simpa [runUpdates] using h
  | cons dt rest ih =>
    rw [runUpdates, update_none_eq a dt h]
    have h' : ({ a with elapsed := a.elapsed + dt } : Animation).targets = none := h
    split_ifs <;> simpa using ih { a with elapsed := a.elapsed + dt } h'

/-- C7: a `Task` built with `loops=2`, `interval=100` fires its callback
exactly once on each of the first two `update(100)` ticks, deactivates
itself (`kill()`) on the second, and a third tick delivered through the
sprite group no longer fires the callback. -/
theorem task_loops_two_fires_twice_then_stops :
    (mkTask 100 2).map (fun t =>
      let r1 := t.groupUpdate 100
      let r2 := r1.1.groupUpdate 100
      let r3 := r2.1.groupUpdate 100
      (r1.2, r2.2, r2.1.alive, r3.2, r3.1.alive))
    = some (true, true, false, false, false) := by
  norm_num [mkTask, Task.groupUpdate, Task.update]

/-- C10: a `Task` with the default `interval=0` and `loops=-1` fires its
callback exactly once on every `update(dt)` call with `dt ≥ 0` (the timer
condition `_timer >= interval` always holds), and nothing else about the
task changes (`_timer` gains `dt` and immediately loses `interval = 0`,
`_loops` stays `-1`, the task is never deactivated). -/
theorem task_interval_zero_always_fires (t : Task) (dt : ℚ)
    (hi : t.interval = 0) (hl : t.loops = -1) (ht : 0 ≤ t.timer)
    (hd : 0 ≤ dt) :
    t.update dt = ({ t with timer := t.timer + dt }, true) := by
  have hcond : (0 : ℚ) ≤ t.timer + dt := add_nonneg ht hd
  simp [Task.update, hi, hl, hcond]

/-- Witness for C10 at `interval = 0`, `loops = -1`, `timer = 0`, `dt = 0`. -/
theorem task_interval_zero_always_fires_witness :
    (⟨0, -1, 0, -1, true⟩ : Task).update 0 = (⟨0, -1, 0, -1, true⟩, true) := by
  simpa using
    task_interval_zero_always_fires ⟨0, -1, 0, -1, true⟩ 0 rfl rfl le_rfl le_rfl

/-- The early-return branch of `Animation.update`: while
`_elapsed < _delay` (after the `+= dt`), only the accumulator changes. -/
lemma update_delay_eq (a : Animation) (dt : ℚ)
    (h : a.elapsed + dt < a.delay) :
    a.update dt = .ok { anim := { a with elapsed := a.elapsed + dt },
                        writes := [], fired := false } := by
  simp only [Animation.update, if_pos h]

/-- C8: while the accumulated elapsed time (including the current `dt`)
is still strictly below the configured delay, `Animation.update` returns
early: it performs no attribute writes, fires no callback, and changes
nothing but the `_elapsed` accumulator. -/
theorem update_before_delay_is_inert (a : Animation) (dt : ℚ)
    (h : a.elapsed + dt < a.delay) :
    a.update dt = .ok { anim := { a with elapsed := a.elapsed + dt },
                        writes := [], fired := false } :=
  update_delay_eq a dt h

/-- Witness for C8: delay 10, one bound target, `update(4)` writes nothing. -/
theorem update_before_delay_is_inert_witness :
    (⟨false, 1000, 10, linearQ, 0, [("x", 100)],
      some [(0, [("x", (0, 100))])], false, true⟩ : Animation).update 4
    = .ok { anim := ⟨false, 1000, 10, linearQ, 4, [("x", 100)],
                     some [(0, [("x", (0, 100))])], false, true⟩,
            writes := [], fired := false } := by
  simpa using update_before_delay_is_inert
    ⟨false, 1000, 10, linearQ, 0, [("x", 100)],
      some [(0, [("x", (0, 100))])], false, true⟩ 4 (by norm_num)

/-- C4 counterexample: an `Animation` constructed with `duration=0`,
started on a target, raises `ZeroDivisionError` on its very first
`update(0)` (the division `self._elapsed / self._duration` is unguarded);
it is not treated as immediate completion. -/
theorem zero_duration_first_update_raises :
    ((mkAnimation [("x", 100)] 0 0 linearQ false false).start 0
        [("x", 0)]).map (fun a => errOf (a.update 0))
    = some (some .zeroDivision) := by
  norm_num [mkAnimation, Animation.start, captureProps, getAttr,
    Animation.update, errOf]

/-- C4 amended: whenever `duration = 0` and the accumulated elapsed time
has reached the delay, `Animation.update` raises `ZeroDivisionError`
(after the `_elapsed += dt` mutation); zero duration is never treated as
immediate completion. -/
theorem update_zero_duration_raises (a : Animation) (dt : ℚ)
    (h0 : a.duration = 0) (hge : a.delay ≤ a.elapsed + dt) :
    a.update dt = .error (.zeroDivision, { a with elapsed := a.elapsed + dt }) := by
  simp [Animation.update, h0, not_lt.mpr hge]

/-- Witness for the amended C4 at a started zero-duration animation. -/
theorem update_zero_duration_raises_witness :
    (⟨false, 0, 0, linearQ, 0, [("x", 100)],
      some [(0, [("x", (0, 100))])], false, true⟩ : Animation).update 3
    = .error (.zeroDivision,
        ⟨false, 0, 0, linearQ, 3, [("x", 100)],
          some [(0, [("x", (0, 100))])], false, true⟩) := by
  simpa using update_zero_duration_raises
    ⟨false, 0, 0, linearQ, 0, [("x", 100)],
      some [(0, [("x", (0, 100))])], false, true⟩ 3 rfl (by norm_num)

/-- C3 counterexample: on an `Animation` that was never started
(`_targets` is `None`, default `delay=0`), `update(0)` is not inert: it
raises `TypeError` from iterating `self._targets`. -/
theorem update_before_start_raises :
    errOf ((mkAnimation [("x", 100)] 1000 0 linearQ false false).update 0)
    = some .typeError := by
  norm_num [mkAnimation, Animation.update, errOf]

/-- C3 amended: before any `start`, `update(dt)` is inert only while the
accumulated elapsed time stays below the delay; once it reaches the
delay, `update` raises (`ZeroDivisionError` if `duration` is 0, otherwise
`TypeError` from iterating `self._targets = None`). -/
theorem update_unstarted_behaviour (a : Animation) (dt : ℚ)
    (h : a.targets = none) :
    a.update dt =
      if a.elapsed + dt < a.delay then
        .ok { anim := { a with elapsed := a.elapsed + dt }, writes := [],
              fired := false }
      else if a.duration = 0 then
        .error (.zeroDivision, { a with elapsed := a.elapsed + dt })
      else
        .error (.typeError, { a with elapsed := a.elapsed + dt }) :=
  update_none_eq a dt h

/-- Witness for the amended C3 on a fresh animation with delay 5. -/
theorem update_unstarted_behaviour_witness :
    (mkAnimation [("x", 100)] 1000 5 linearQ false false).update 1
    = .ok { anim := ⟨false, 1000, 5, linearQ, 1, [("x", 100)], none,
                     false, true⟩,
            writes := [], fired := false } := by
  have h := update_unstarted_behaviour
    (mkAnimation [("x", 100)] 1000 5 linearQ false false) 1 rfl
  norm_num [mkAnimation] at h ⊢
  exact h

/-- C2 counterexample: after `start` on target 1 and then `start` on
target 2, the binding list holds only target 2 — the second `start`
replaced the first binding (`self._targets = [(sprite, dict())]`), so
target 1 is no longer animated. -/
theorem second_start_drops_first_target :
    (((mkAnimation [("x", 100)] 1000 0 linearQ false false).start 1
        [("x", 0)]).bind (fun a => a.start 2 [("x", 5)])).map (·.targets)
    = some (some [(2, [("x", (5, 100))])]) := rfl

/-- C2 amended: every successful call to `Animation.start` replaces the
whole binding list with a single binding for the new target (capturing
that target's current attribute values); bindings made by earlier `start`
calls are discarded, so a subsequent `update` mutates only the target of
the most recent `start`. -/
theorem start_replaces_bindings (a : Animation) (tid : Nat)
    (target : List (String × ℚ)) (cap : List (String × (ℚ × ℚ)))
    (h : captureProps target a.props = some cap) :
    a.start tid target = some { a with targets := some [(tid, cap)] } := by
  simp [Animation.start, h]

/-- Witness for the amended C2: restarting on target 2 yields exactly the
one fresh binding. -/
theorem start_replaces_bindings_witness :
    (⟨false, 1000, 0, linearQ, 0, [("x", 100)],
      some [(1, [("x", (0, 100))])], false, true⟩ : Animation).start 2
        [("x", 5)]
    = some (⟨false, 1000, 0, linearQ, 0, [("x", 100)],
        some [(2, [("x", (5, 100))])], false, true⟩) := by
  exact start_replaces_bindings
    ⟨false, 1000, 0, linearQ, 0, [("x", 100)],
      some [(1, [("x", (0, 100))])], false, true⟩ 2 [("x", 5)]
    [("x", (5, 100))] rfl

/-- Behaviour of `Animation.update` once the delay has passed, on a bound
animation with nonzero duration: compute `p = min(1, elapsed/duration)`,
write the interpolation at `t = transition(p)` for every binding, and when
`p >= 1` clear the bindings, `kill()`, and fire the callback if set. -/
lemma update_running_eq (a : Animation) (dt : ℚ) (tl : Bindings)
    (htl : a.targets = some tl) (hdl : a.delay ≤ a.elapsed + dt)
    (hdur : a.duration ≠ 0) :
    a.update dt =
      if 1 ≤ min 1 ((a.elapsed + dt) / a.duration) then
        .ok { anim := { a with elapsed := a.elapsed + dt, targets := none,
                               alive := false },
              writes := interpWrites tl a.round_values
                (a.transition (min 1 ((a.elapsed + dt) / a.duration))),
              fired := a.hasCallback }
      else
        .ok { anim := { a with elapsed := a.elapsed + dt },
              writes := interpWrites tl a.round_values
                (a.transition (min 1 ((a.elapsed + dt) / a.duration))),
              fired := false } := by
  simp [Animation.update, not_lt.mpr hdl, hdur, htl]

/-- C1: once the accumulated elapsed time (delay included — it is never
subtracted) has reached the delay, `update` interpolates at
`t = transition(min(1, elapsed/duration))`; with a nonzero delay already
passed, that normalized progress is strictly positive, so the very first
interpolated frame is already past the start of the curve. -/
theorem progress_keeps_delay_in_elapsed (a : Animation) (dt : ℚ)
    (tl : Bindings) (htl : a.targets = some tl) (hdur : 0 < a.duration)
    (hdel : 0 < a.delay) (hge : a.delay ≤ a.elapsed + dt) :
    writesOf (a.update dt)
      = interpWrites tl a.round_values (a.transition (a.progressAfter dt))
    ∧ 0 < a.progressAfter dt := by
  refine ⟨?_, lt_min one_pos (div_pos (lt_of_lt_of_le hdel hge) hdur)⟩
  rw [update_running_eq a dt tl htl hge hdur.ne']
  by_cases h : (1 : ℚ) ≤ min 1 ((a.elapsed + dt) / a.duration)
  · rw [if_pos h]; rfl
  · rw [if_neg h]; rfl

/-- Witness for C1: delay 2 already passed after `update(5)`; the frame is
interpolated at `p = min(1, 5/10) = 1/2 > 0`. -/
theorem progress_keeps_delay_in_elapsed_witness :
    writesOf ((⟨false, 10, 2, linearQ, 0, [("x", 100)],
        some [(0, [("x", (0, 100))])], false, true⟩ : Animation).update 5)
      = interpWrites [(0, [("x", (0, 100))])] false
          (linearQ ((⟨false, 10, 2, linearQ, 0, [("x", 100)],
            some [(0, [("x", (0, 100))])], false, true⟩ :
              Animation).progressAfter 5))
    ∧ 0 < (⟨false, 10, 2, linearQ, 0, [("x", 100)],
        some [(0, [("x", (0, 100))])], false, true⟩ :
          Animation).progressAfter 5 := by
  exact progress_keeps_delay_in_elapsed
    ⟨false, 10, 2, linearQ, 0, [("x", 100)],
      some [(0, [("x", (0, 100))])], false, true⟩ 5
    [(0, [("x", (0, 100))])] rfl (by norm_num) (by norm_num) (by norm_num)

/-- C9: with `duration = D > 0`, `delay = 0`, `round_values` off, linear
easing and property `{x: 100}`, starting on a target whose `x` is `0` and
then calling `update(D)` once writes exactly `100` to the target's `x`
(the `t = 1` boundary of `start*(1-t) + end*t`). -/
theorem single_update_at_duration_writes_end (D : ℚ) (hD : 0 < D)
    (tid : Nat) :
    ((mkAnimation [("x", 100)] D 0 linearQ false false).start tid
        [("x", 0)]).map (fun a => writesOf (a.update D))
    = some [(tid, "x", 100)] := by
  norm_num [mkAnimation, Animation.start, captureProps, getAttr,
    Animation.update, writesOf, interpWrites, linearQ, div_self hD.ne',
    not_lt.mpr hD.le, hD.ne']

/-- Witness for C9 at `D = 7`, target id 0. -/
theorem single_update_at_duration_writes_end_witness :
    ((mkAnimation [("x", 100)] 7 0 linearQ false false).start 0
        [("x", 0)]).map (fun a => writesOf (a.update 7))
    = some [(0, "x", 100)] :=
  single_update_at_duration_writes_end 7 (by norm_num) 0

/-- C6: for a bound animation with a completion callback and positive
duration that has not yet completed, the callback fires exactly once
along every trace of `update` calls with nonnegative `dt`s: once the
accumulated time reaches both the duration and the delay (the first such
call has `p = 1`), and never on any earlier or later call.  The count is
0 while the trace's total time stays short of either threshold. -/
theorem callback_fires_exactly_once (a : Animation) (tl : Bindings)
    (dts : List ℚ) (htl : a.targets = some tl) (hcb : a.hasCallback = true)
    (hdur : 0 < a.duration)
    (hact : a.elapsed < a.duration ∨ a.elapsed < a.delay)
    (hnn : ∀ d ∈ dts, 0 ≤ d) :
    (runUpdates a dts).2 =
      if a.duration ≤ a.elapsed + dts.sum ∧ a.delay ≤ a.elapsed + dts.sum
      then 1 else 0 := by
  induction dts generalizing a with
  | nil =>
    have hcond : ¬ (a.duration ≤ a.elapsed + ([] : List ℚ).sum
        ∧ a.delay ≤ a.elapsed + ([] : List ℚ).sum) := by
      simp only [List.sum_nil, add_zero]
      rcases hact with h | h
      · exact fun hc => (not_le.mpr h) hc.1
      · exact fun hc => (not_le.mpr h) hc.2
    rw [runUpdates, if_neg hcond]
  | cons dt rest ih =>
    have hrest : ∀ d ∈ rest, 0 ≤ d :=
      fun d hd => hnn d (List.mem_cons_of_mem _ hd)
    have hsum : 0 ≤ rest.sum := List.sum_nonneg hrest
    simp only [runUpdates, List.sum_cons]
    by_cases hdl : a.elapsed + dt < a.delay
    · rw [update_delay_eq a dt hdl]
      have ih' := ih { a with elapsed := a.elapsed + dt }
        (show ({ a with elapsed := a.elapsed + dt } : Animation).targets
          = some tl from htl) hcb hdur (Or.inr hdl) hrest
      simp only at ih' ⊢
      rw [ih', add_assoc]
      simp
    · have hge : a.delay ≤ a.elapsed + dt := not_lt.mp hdl
      rw [update_running_eq a dt tl htl hge hdur.ne']
      by_cases hfin : a.duration ≤ a.elapsed + dt
      · have hp : (1 : ℚ) ≤ min 1 ((a.elapsed + dt) / a.duration) :=
          le_min le_rfl ((one_le_div hdur).mpr hfin)
        rw [if_pos hp]
        have hnone := (runUpdates_none
          { a with elapsed := a.elapsed + dt, targets := none,
                   alive := false } rest rfl).1
        have hcond : a.duration ≤ a.elapsed + (dt + rest.sum)
            ∧ a.delay ≤ a.elapsed + (dt + rest.sum) :=
          ⟨by linarith, by linarith⟩
        simp only at hnone ⊢
        rw [hcb] at hnone
        simp [hcb, hnone, hcond]
      · have hp : ¬ (1 : ℚ) ≤ min 1 ((a.elapsed + dt) / a.duration) :=
          not_le.mpr (lt_of_le_of_lt (min_le_right _ _)
            ((div_lt_one hdur).mpr (not_le.mp hfin)))
        rw [if_neg hp]
        have ih' := ih { a with elapsed := a.elapsed + dt }
          (show ({ a with elapsed := a.elapsed + dt } : Animation).targets
            = some tl from htl) hcb hdur (Or.inl (not_le.mp hfin)) hrest
        simp only at ih' ⊢
        rw [ih', add_assoc]
        simp

/-- Witness for C6: duration 10, delay 0, trace `[4, 6, 5]` — the callback
fires exactly once (on the second call, where the total reaches 10). -/
theorem callback_fires_exactly_once_witness :
    (runUpdates (⟨false, 10, 0, linearQ, 0, [("x", 100)],
        some [(0, [("x", (0, 100))])], true, true⟩ : Animation)
      [4, 6, 5]).2 = 1 := by
  have h := callback_fires_exactly_once
    (⟨false, 10, 0, linearQ, 0, [("x", 100)],
        some [(0, [("x", (0, 100))])], true, true⟩ : Animation)
    [(0, [("x", (0, 100))])] [4, 6, 5] rfl rfl (by norm_num)
    (Or.inl (by norm_num)) (by norm_num)
  norm_num at h
  exact h

/-!
The `AnimationTransition` easing catalog, over the reals.  Python's
`pow(2, x)` is the real power `(2 : ℝ) ^ (x : ℝ)`; `sin`, `cos`, `sqrt`
and `pi` are `Real.sin`, `Real.cos`, `Real.sqrt`, `Real.pi`.
-/

noncomputable section

namespace AnimationTransition

def linear (progress : ℝ) : ℝ := progress

def in_quad (progress : ℝ) : ℝ := progress * progress

def out_quad (progress : ℝ) : ℝ := -1.0 * progress * (progress - 2.0)

def in_out_quad (progress : ℝ) : ℝ :=
  let p := progress * 2
  if p < 1 then 0.5 * p * p
  else
    let p := p - 1.0;
    -0.5 * (p * (p - 2.0) - 1.0)

def in_cubic (progress : ℝ) : ℝ := progress * progress * progress

def out_cubic (progress : ℝ) : ℝ :=
  let p := progress - 1.0
  p * p * p + 1.0

def in_out_cubic (progress : ℝ) : ℝ :=
  let p := progress * 2
  if p < 1 then 0.5 * p * p * p
  else
    let p := p - 2
    0.5 * (p * p * p + 2.0)

def in_quart (progress : ℝ) : ℝ :=
  progress * progress * progress * progress

def out_quart (progress : ℝ) : ℝ :=
  let p := progress - 1.0;
  -1.0 * (p * p * p * p - 1.0)

def in_out_quart (progress : ℝ) : ℝ :=
  let p := progress * 2
  if p < 1 then 0.5 * p * p * p * p
  else
    let p := p - 2;
    -0.5 * (p * p * p * p - 2.0)

def in_quint (progress : ℝ) : ℝ :=
  progress * progress * progress * progress * progress

def out_quint (progress : ℝ) : ℝ :=
  let p := progress - 1.0
  p * p * p * p * p + 1.0

def in_out_quint (progress : ℝ) : ℝ :=
  let p := progress * 2
  if p < 1 then 0.5 * p * p * p * p * p
  else
    let p := p - 2.0
    0.5 * (p * p * p * p * p + 2.0)

def in_sine (progress : ℝ) : ℝ :=
  -1.0 * Real.cos (progress * (Real.pi / 2.0)) + 1.0

def out_sine (progress : ℝ) : ℝ :=
  Real.sin (progress * (Real.pi / 2.0))

def in_out_sine (progress : ℝ) : ℝ :=
  -0.5 * (Real.cos (Real.pi * progress) - 1.0)

def in_expo (progress : ℝ) : ℝ :=
  if progress = 0 then 0.0
  else (2 : ℝ) ^ (10 * (progress - 1.0))

def out_expo (progress : ℝ) : ℝ :=
  if progress = 1.0 then 1.0
  else -(2 : ℝ) ^ (-10 * progress) + 1.0

def in_out_expo (progress : ℝ) : ℝ :=
  if progress = 0 then 0.0
  else if progress = 1.0 then 1.0
  else
    let p := progress * 2
    if p < 1 then 0.5 * (2 : ℝ) ^ (10 * (p - 1.0))
    else
      let p := p - 1.0
      0.5 * (-(2 : ℝ) ^ (-10 * p) + 2.0)

def in_circ (progress : ℝ) : ℝ :=
  -1.0 * (Real.sqrt (1.0 - progress * progress) - 1.0)

def out_circ (progress : ℝ) : ℝ :=
  let p := progress - 1.0
  Real.sqrt (1.0 - p * p)

def in_out_circ (progress : ℝ) : ℝ :=
  let p := progress * 2
  if p < 1 then -0.5 * (Real.sqrt (1.0 - p * p) - 1.0)
  else
    let p := p - 2.0
    0.5 * (Real.sqrt (1.0 - p * p) + 1.0)

def in_elastic (progress : ℝ) : ℝ :=
  let p := (0.3 : ℝ)
  let s := p / 4.0
  let q := progress
  if q = 1 then 1.0
  else
    let q := q - 1.0;
    -((2 : ℝ) ^ (10 * q) * Real.sin ((q - s) * (2 * Real.pi) / p))

def out_elastic (progress : ℝ) : ℝ :=
  let p := (0.3 : ℝ)
  let s := p / 4.0
  let q := progress
  if q = 1 then 1.0
  else (2 : ℝ) ^ (-10 * q) * Real.sin ((q - s) * (2 * Real.pi) / p) + 1.0

def in_out_elastic (progress : ℝ) : ℝ :=
  let p := (0.3 : ℝ) * 1.5
  let s := p / 4.0
  let q := progress * 2
  if q = 2 then 1.0
  else if q < 1 then
    let q := q - 1.0;
    -0.5 * ((2 : ℝ) ^ (10 * q) * Real.sin ((q - s) * (2.0 * Real.pi) / p))
  else
    let q := q - 1.0
    (2 : ℝ) ^ (-10 * q) * Real.sin ((q - s) * (2.0 * Real.pi) / p) * 0.5 + 1.0

def in_back (progress : ℝ) : ℝ :=
  progress * progress * ((1.70158 + 1.0) * progress - 1.70158)

def out_back (progress : ℝ) : ℝ :=
  let p := progress - 1.0
  p * p * ((1.70158 + 1) * p + 1.70158) + 1.0

def in_out_back (progress : ℝ) : ℝ :=
  let p := progress * 2.0
  let s := (1.70158 : ℝ) * 1.525
  if p < 1 then 0.5 * (p * p * ((s + 1.0) * p - s))
  else
    let p := p - 2.0
    0.5 * (p * p * ((s + 1.0) * p + s) + 2.0)

def out_bounce_internal (t d : ℝ) : ℝ :=
  let p := t / d
  if p < 1.0 / 2.75 then 7.5625 * p * p
  else if p < 2.0 / 2.75 then
    let p := p - 1.5 / 2.75
    7.5625 * p * p + 0.75
  else if p < 2.5 / 2.75 then
    let p := p - 2.25 / 2.75
    7.5625 * p * p + 0.9375
  else
    let p := p - 2.625 / 2.75
    7.5625 * p * p + 0.984375

def in_bounce_internal (t d : ℝ) : ℝ :=
  1.0 - out_bounce_internal (d - t) d

def in_bounce (progress : ℝ) : ℝ :=
  in_bounce_internal progress 1.0

def out_bounce (progress : ℝ) : ℝ :=
  out_bounce_internal progress 1.0

def in_out_bounce (progress : ℝ) : ℝ :=
  let p := progress * 2.0
  if p < 1.0 then in_bounce_internal p 1.0 * 0.5
  else out_bounce_internal (p - 1.0) 1.0 * 0.5 + 0.5

end AnimationTransition

end

end Pyroller

namespace Pyroller

namespace AnimationTransition

/-- The damped-sinusoid factor of `in_elastic` at `progress = 0`:
the sine argument `(-1 - 0.075)·2π/0.3 = -43π/6` evaluates to `1/2`. -/
lemma in_elastic_sin_at_zero :
    Real.sin ((((0 : ℝ) - 1.0) - 0.3 / 4.0) * (2 * Real.pi) / 0.3)
    = 1 / 2 := by
  have harg : (((0 : ℝ) - 1.0) - 0.3 / 4.0) * (2 * Real.pi) / 0.3
      = Real.pi - Real.pi / 6 - (4 : ℕ) * (2 * Real.pi) := by
    push_cast
    ring
  rw [harg, Real.sin_periodic.sub_nat_mul_eq, Real.sin_pi_sub,
    Real.sin_pi_div_six]

/-- Python `pow(2, 10*(0-1)) = 2⁻¹⁰ = 1/1024` as a real power. -/
lemma two_rpow_neg_ten :
    (2 : ℝ) ^ ((10 : ℝ) * ((0 : ℝ) - 1.0)) = 1 / 1024 := by
  have hexp : (10 : ℝ) * ((0 : ℝ) - 1.0) = ((-10 : ℤ) : ℝ) := by
    push_cast
    ring
  rw [hexp, Real.rpow_intCast]
  norm_num

/-- The function `in_elastic` misses the lower boundary: its value at 0 is the exact
residue `-1/2048` (there is no special case at `progress == 0`). -/
lemma in_elastic_zero : in_elastic 0 = -(1 / 2048) := by
  simp only [in_elastic]
  rw [if_neg (by norm_num : ¬ ((0 : ℝ) = 1))]
  rw [in_elastic_sin_at_zero, two_rpow_neg_ten]
  norm_num

/-- Python `pow(2, 10*(0*2-1)) = 1/1024`, the in-out variant of the exponent. -/
lemma two_rpow_neg_ten_inout :
    (2 : ℝ) ^ ((10 : ℝ) * ((0 : ℝ) * 2 - 1.0)) = 1 / 1024 := by
  have hexp : (10 : ℝ) * ((0 : ℝ) * 2 - 1.0) = ((-10 : ℤ) : ℝ) := by
    push_cast
    ring
  rw [hexp, Real.rpow_intCast]
  norm_num

/-- The sine factor of `in_out_elastic` at `progress = 0`: the argument
`(-1 - 0.1125)·2π/0.45 = -89π/18` evaluates to `-sin(π/18)`. -/
lemma in_out_elastic_sin_at_zero :
    Real.sin ((((0 : ℝ) * 2 - 1.0) - (0.3 : ℝ) * 1.5 / 4.0)
        * (2.0 * Real.pi) / ((0.3 : ℝ) * 1.5))
    = -Real.sin (Real.pi / 18) := by
  have harg : (((0 : ℝ) * 2 - 1.0) - (0.3 : ℝ) * 1.5 / 4.0)
      * (2.0 * Real.pi) / ((0.3 : ℝ) * 1.5)
      = Real.pi / 18 + Real.pi - (3 : ℕ) * (2 * Real.pi) := by
    push_cast
    ring
  rw [harg, Real.sin_periodic.sub_nat_mul_eq, Real.sin_add_pi]

/-- The function `in_out_elastic` misses the lower boundary: its value at 0 is the
exact residue `sin(π/18)/2048` (the special case covers only `q == 2`). -/
lemma in_out_elastic_zero :
    in_out_elastic 0 = Real.sin (Real.pi / 18) / 2048 := by
  simp only [in_out_elastic]
  rw [if_neg (by norm_num : ¬ ((0 : ℝ) * 2 = 2)),
    if_pos (by norm_num : (0 : ℝ) * 2 < 1)]
  rw [in_out_elastic_sin_at_zero, two_rpow_neg_ten_inout]
  ring

/-- Positivity `sin(π/18) > 0`: so the `in_out_elastic` residue at 0 is nonzero. -/
lemma sin_pi_div_eighteen_pos : 0 < Real.sin (Real.pi / 18) :=
  Real.sin_pos_of_pos_of_lt_pi (by positivity)
    (div_lt_self Real.pi_pos (by norm_num))

end AnimationTransition

/-- C5 counterexample: `in_elastic` does not satisfy `f(0) = 0` in exact
real arithmetic — `in_elastic 0 = -1/2048 ≠ 0`, because the elastic
special case only covers `progress == 1`. -/
theorem in_elastic_zero_ne_zero : AnimationTransition.in_elastic 0 ≠ 0 := by
  rw [AnimationTransition.in_elastic_zero]
  norm_num

namespace AnimationTransition

/-- The function `out_elastic` is exact at the lower boundary without a special case:
the sine argument `-0.075·2π/0.3` is exactly `-π/2`. -/
lemma out_elastic_zero : out_elastic 0 = 0 := by
  simp only [out_elastic]
  rw [if_neg (by norm_num : ¬ ((0 : ℝ) = 1))]
  rw [show ((0 : ℝ) - 0.3 / 4.0) * (2 * Real.pi) / 0.3 = -(Real.pi / 2) by
    ring]
  rw [Real.sin_neg, Real.sin_pi_div_two]
  rw [show (-10 : ℝ) * (0 : ℝ) = 0 by ring, Real.rpow_zero]
  norm_num

end AnimationTransition

/-- C5 amended: every easing function in the `AnimationTransition`
catalog satisfies `f(0) = 0` and `f(1) = 1` exactly (over exact real
arithmetic) — the power families by their polynomial forms, sine by
`cos(π/2) = sin(π/2) - 1 = 0`, expo via its explicit special cases, circ
by `√1 = 1` and `√0 = 0`, bounce by its exact rational sub-interval
constants, back by its polynomial form, and `out_elastic`/the elastic
special case at `progress = 1` — EXCEPT at the lower boundary of
`in_elastic` and `in_out_elastic`, which have no special case at 0 and
evaluate to the nonzero residues `-1/2048` and `sin(π/18)/2048`. -/
theorem easing_boundary_exact :
    AnimationTransition.linear 0 = 0 ∧ AnimationTransition.linear 1 = 1
    ∧ AnimationTransition.in_quad 0 = 0 ∧ AnimationTransition.in_quad 1 = 1
    ∧ AnimationTransition.out_quad 0 = 0 ∧ AnimationTransition.out_quad 1 = 1
    ∧ AnimationTransition.in_out_quad 0 = 0
    ∧ AnimationTransition.in_out_quad 1 = 1
    ∧ AnimationTransition.in_cubic 0 = 0 ∧ AnimationTransition.in_cubic 1 = 1
    ∧ AnimationTransition.out_cubic 0 = 0
    ∧ AnimationTransition.out_cubic 1 = 1
    ∧ AnimationTransition.in_out_cubic 0 = 0
    ∧ AnimationTransition.in_out_cubic 1 = 1
    ∧ AnimationTransition.in_quart 0 = 0 ∧ AnimationTransition.in_quart 1 = 1
    ∧ AnimationTransition.out_quart 0 = 0
    ∧ AnimationTransition.out_quart 1 = 1
    ∧ AnimationTransition.in_out_quart 0 = 0
    ∧ AnimationTransition.in_out_quart 1 = 1
    ∧ AnimationTransition.in_quint 0 = 0 ∧ AnimationTransition.in_quint 1 = 1
    ∧ AnimationTransition.out_quint 0 = 0
    ∧ AnimationTransition.out_quint 1 = 1
    ∧ AnimationTransition.in_out_quint 0 = 0
    ∧ AnimationTransition.in_out_quint 1 = 1
    ∧ AnimationTransition.in_sine 0 = 0 ∧ AnimationTransition.in_sine 1 = 1
    ∧ AnimationTransition.out_sine 0 = 0 ∧ AnimationTransition.out_sine 1 = 1
    ∧ AnimationTransition.in_out_sine 0 = 0
    ∧ AnimationTransition.in_out_sine 1 = 1
    ∧ AnimationTransition.in_expo 0 = 0 ∧ AnimationTransition.in_expo 1 = 1
    ∧ AnimationTransition.out_expo 0 = 0 ∧ AnimationTransition.out_expo 1 = 1
    ∧ AnimationTransition.in_out_expo 0 = 0
    ∧ AnimationTransition.in_out_expo 1 = 1
    ∧ AnimationTransition.in_circ 0 = 0 ∧ AnimationTransition.in_circ 1 = 1
    ∧ AnimationTransition.out_circ 0 = 0 ∧ AnimationTransition.out_circ 1 = 1
    ∧ AnimationTransition.in_out_circ 0 = 0
    ∧ AnimationTransition.in_out_circ 1 = 1
    ∧ AnimationTransition.out_elastic 0 = 0
    ∧ AnimationTransition.out_elastic 1 = 1
    ∧ AnimationTransition.in_elastic 1 = 1
    ∧ AnimationTransition.in_out_elastic 1 = 1
    ∧ AnimationTransition.in_back 0 = 0 ∧ AnimationTransition.in_back 1 = 1
    ∧ AnimationTransition.out_back 0 = 0 ∧ AnimationTransition.out_back 1 = 1
    ∧ AnimationTransition.in_out_back 0 = 0
    ∧ AnimationTransition.in_out_back 1 = 1
    ∧ AnimationTransition.in_bounce 0 = 0
    ∧ AnimationTransition.in_bounce 1 = 1
    ∧ AnimationTransition.out_bounce 0 = 0
    ∧ AnimationTransition.out_bounce 1 = 1
    ∧ AnimationTransition.in_out_bounce 0 = 0
    ∧ AnimationTransition.in_out_bounce 1 = 1
    ∧ AnimationTransition.in_elastic 0 = -(1 / 2048)
    ∧ AnimationTransition.in_out_elastic 0 = Real.sin (Real.pi / 18) / 2048
    ∧ AnimationTransition.in_out_elastic 0 ≠ 0 := by
  refine ⟨?_, ?_, ?_, ?_, ?_, ?_, ?_, ?_, ?_, ?_, ?_, ?_, ?_, ?_, ?_, ?_,
    ?_, ?_, ?_, ?_, ?_, ?_, ?_, ?_, ?_, ?_, ?_, ?_, ?_, ?_, ?_, ?_,
    ?_, ?_, ?_, ?_, ?_, ?_, ?_, ?_, ?_, ?_, ?_, ?_, ?_, ?_, ?_, ?_,
    ?_, ?_, ?_, ?_, ?_, ?_, ?_, ?_, ?_, ?_, ?_, ?_, ?_, ?_, ?_⟩
  · norm_num [AnimationTransition.linear]
  · norm_num [AnimationTransition.linear]
  · norm_num [AnimationTransition.in_quad]
  · norm_num [AnimationTransition.in_quad]
  · norm_num [AnimationTransition.out_quad]
  · norm_num [AnimationTransition.out_quad]
  · norm_num [AnimationTransition.in_out_quad]
  · norm_num [AnimationTransition.in_out_quad]
  · norm_num [AnimationTransition.in_cubic]
  · norm_num [AnimationTransition.in_cubic]
  · norm_num [AnimationTransition.out_cubic]
  · norm_num [AnimationTransition.out_cubic]
  · norm_num [AnimationTransition.in_out_cubic]
  · norm_num [AnimationTransition.in_out_cubic]
  · norm_num [AnimationTransition.in_quart]
  · norm_num [AnimationTransition.in_quart]
  · norm_num [AnimationTransition.out_quart]
  · norm_num [AnimationTransition.out_quart]
  · norm_num [AnimationTransition.in_out_quart]
  · norm_num [AnimationTransition.in_out_quart]
  · norm_num [AnimationTransition.in_quint]
  · norm_num [AnimationTransition.in_quint]
  · norm_num [AnimationTransition.out_quint]
  · norm_num [AnimationTransition.out_quint]
  · norm_num [AnimationTransition.in_out_quint]
  · norm_num [AnimationTransition.in_out_quint]
  · norm_num [AnimationTransition.in_sine]
  · norm_num [AnimationTransition.in_sine, Real.cos_pi_div_two]
  · norm_num [AnimationTransition.out_sine]
  · norm_num [AnimationTransition.out_sine, Real.sin_pi_div_two]
  · norm_num [AnimationTransition.in_out_sine]
  · norm_num [AnimationTransition.in_out_sine, Real.cos_pi]
  · norm_num [AnimationTransition.in_expo]
  · norm_num [AnimationTransition.in_expo, Real.rpow_zero]
  · norm_num [AnimationTransition.out_expo, Real.rpow_zero]
  · norm_num [AnimationTransition.out_expo]
  · norm_num [AnimationTransition.in_out_expo]
  · norm_num [AnimationTransition.in_out_expo]
  · norm_num [AnimationTransition.in_circ, Real.sqrt_one]
  · norm_num [AnimationTransition.in_circ, Real.sqrt_zero]
  · norm_num [AnimationTransition.out_circ, Real.sqrt_zero]
  · norm_num [AnimationTransition.out_circ, Real.sqrt_one]
  · norm_num [AnimationTransition.in_out_circ, Real.sqrt_one]
  · norm_num [AnimationTransition.in_out_circ, Real.sqrt_one]
  · exact AnimationTransition.out_elastic_zero
  · norm_num [AnimationTransition.out_elastic]
  · norm_num [AnimationTransition.in_elastic]
  · norm_num [AnimationTransition.in_out_elastic]
  · norm_num [AnimationTransition.in_back]
  · norm_num [AnimationTransition.in_back]
  · norm_num [AnimationTransition.out_back]
  · norm_num [AnimationTransition.out_back]
  · norm_num [AnimationTransition.in_out_back]
  · norm_num [AnimationTransition.in_out_back]
  · norm_num [AnimationTransition.in_bounce,
      AnimationTransition.in_bounce_internal,
      AnimationTransition.out_bounce_internal]
  · norm_num [AnimationTransition.in_bounce,
      AnimationTransition.in_bounce_internal,
      AnimationTransition.out_bounce_internal]
  · norm_num [AnimationTransition.out_bounce,
      AnimationTransition.out_bounce_internal]
  · norm_num [AnimationTransition.out_bounce,
      AnimationTransition.out_bounce_internal]
  · norm_num [AnimationTransition.in_out_bounce,
      AnimationTransition.in_bounce_internal,
      AnimationTransition.out_bounce_internal]
  · norm_num [AnimationTransition.in_out_bounce,
      AnimationTransition.out_bounce_internal]
  · exact AnimationTransition.in_elastic_zero
  · exact AnimationTransition.in_out_elastic_zero
  · rw [AnimationTransition.in_out_elastic_zero]
    exact ne_of_gt (div_pos AnimationTransition.sin_pi_div_eighteen_pos
      (by norm_num))

end Pyroller
